import Mathlib

/-!
# Verification of the SDG Proposal Evaluator

A shallow embedding of `src/proposal_evaluator.py` (a Streamlit app that
extracts text from an uploaded PDF/DOCX document, sends it to an LLM API,
parses the reply into per-SDG scores and renders a bar chart), together
with theorems settling the specification claims about it.

Python strings are modelled as Lean `String` (a list of code points);
Python string operations (`strip`, `split` with `maxsplit=1`, `startswith`,
`int(...)`, `re.search(r'(\d+)', ...)`) are re-implemented below with
Python's semantics, restricted to the ASCII whitespace/digit classes that
the claims exercise.  Python exceptions that the source code does *not*
catch are modelled with `Except PyCrash`; exceptions the code catches and
converts (e.g. the `ValueError` of line 111/113 of the source) never
surface in the model's results.
-/

set_option autoImplicit false

namespace ProposalEvaluator

/-- The uncaught Python exception kinds that the source code can raise. -/
inductive PyCrash where
  /-- `AttributeError`: `re.search(...)` returned `None` and `.group(1)` was called on it. -/
  | attributeError
  /-- `IndexError`: `parts[1]` on a 1-element list (line had no colon). -/
  | indexError
  /-- `ValueError`: `int(...)` applied to a non-numeric string. -/
  | valueError
  /-- `NameError`/`UnboundLocalError`: a name referenced before assignment. -/
  | nameError
  /-- `KeyError`: dictionary lookup of a missing key (API response shape). -/
  | keyError
  deriving DecidableEq

/-- One parsed evaluation entry: the value stored at `results[sdg_number]`,
a dict `{"score": ..., "explanation": ...}` in the source. -/
structure SdgEntry where
  score : String
  explanation : String
  deriving DecidableEq

/-- The `results` dict of `parse_evaluation_text`, modelled as an
insertion-ordered association list with unique keys (Python dict semantics). -/
abbrev Results := List (Nat × SdgEntry)

/-! ## Python string primitives -/

/-- The characters stripped by Python `str.strip()` (ASCII whitespace). -/
def pyIsSpace (c : Char) : Bool :=
  c = ' ' || c = '\t' || c = '\n' || c = '\r' || c = '\x0b' || c = '\x0c'

/-- Strip `pyIsSpace` characters from both ends of a character list. -/
def stripChars (cs : List Char) : List Char :=
  (((cs.dropWhile pyIsSpace).reverse).dropWhile pyIsSpace).reverse

/-- Python `s.strip()`. -/
def pyStrip (s : String) : String :=
  ⟨stripChars s.data⟩

/-- Python `s.startswith(p)`. -/
def pyStartsWith (s p : String) : Bool :=
  p.data.isPrefixOf s.data

/-- Split a character list at the *first* occurrence of the (non-empty)
separator `sep`; `none` when `sep` does not occur.  This is the list-level
core of Python's `s.split(sep, 1)`. -/
def splitAtFirst (sep : List Char) : List Char → Option (List Char × List Char)
  | [] => none
  | c :: cs =>
    if sep.isPrefixOf (c :: cs) then
      some ([], (c :: cs).drop sep.length)
    else
      match splitAtFirst sep cs with
      | none => none
      | some (a, b) => some (c :: a, b)

/-- Python `line.split(":", 1)` (source line 106): the part before the first
colon, and — when a colon exists — the part after it. -/
def splitColonOnce (s : String) : String × Option String :=
  match splitAtFirst [':'] s.data with
  | none => (s, none)
  | some (a, b) => (⟨a⟩, some ⟨b⟩)

/-- The score/explanation separator `" - "` of the expected reply format. -/
def sepChars : List Char :=
  " - ".data

/-- Python `score_and_explanation.split(" - ", 1)` (source line 111),
`none` when the separator is absent (in the source: unpacking then raises
`ValueError`, which line 113 catches). -/
def splitSepOnce (s : String) : Option (String × String) :=
  match splitAtFirst sepChars s.data with
  | none => none
  | some (a, b) => some (⟨a⟩, ⟨b⟩)

/-- `" - "` occurs nowhere among the first `k` positions of `cs` (so a split
at position `k` is a split at the *first* occurrence). -/
def noSepBefore (cs : List Char) (k : Nat) : Bool :=
  (List.range k).all (fun i => !(sepChars.isPrefixOf (cs.drop i)))

/-- Split on every occurrence of a character, keeping empty pieces —
Python `text.split('\n')` semantics (source line 98). -/
def splitOnCharAux (sep : Char) : List Char → List (List Char)
  | [] => [[]]
  | c :: cs =>
    match splitOnCharAux sep cs with
    | [] => [[]]
    | h :: t => if c = sep then [] :: h :: t else (c :: h) :: t

/-- Python `evaluation_text.split('\n')`. -/
def pySplitLines (t : String) : List String :=
  (splitOnCharAux '\n' t.data).map String.mk

/-- Numeric value of a digit run. -/
def digitsVal (ds : List Char) : Nat :=
  ds.foldl (fun n c => 10 * n + (c.toNat - 48)) 0

/-- First maximal run of digits anywhere in the list, as a number. -/
def firstDigitRunAux : List Char → Option Nat
  | [] => none
  | c :: cs =>
    if c.isDigit then some (digitsVal (c :: cs.takeWhile Char.isDigit))
    else firstDigitRunAux cs

/-- Python `int(re.search(r'(\d+)', sdg).group(1))` when the search succeeds
(source line 109); `none` models `re.search` returning `None`. -/
def firstDigitRun (s : String) : Option Nat :=
  firstDigitRunAux s.data

/-- Python `int(s)` for `str` arguments: strip whitespace, optional sign,
then a non-empty digit run; `none` models the `ValueError` raised otherwise
(source line 171 applies this to each stored score string). -/
def pyInt (s : String) : Option Int :=
  match (pyStrip s).data with
  | [] => none
  | '+' :: ds => if ds ≠ [] && ds.all Char.isDigit then some (digitsVal ds) else none
  | '-' :: ds => if ds ≠ [] && ds.all Char.isDigit then some (-(digitsVal ds : Int)) else none
  | ds => if ds.all Char.isDigit then some (digitsVal ds) else none

/-! ## The result parser (`parse_evaluation_text`, source lines 95–115) -/

/-- Python dict assignment `results[sdg_number] = entry`: replace in place
when the key exists, append otherwise. -/
def insertEntry (res : Results) (n : Nat) (e : SdgEntry) : Results :=
  if res.any (fun p => p.1 = n) then
    res.map (fun p => if p.1 = n then (n, e) else p)
  else
    res ++ [(n, e)]

/-- Lookup in the results dict. -/
def lookupSdg (res : Results) (n : Nat) : Option SdgEntry :=
  (res.find? (fun p => p.1 = n)).map (fun p => p.2)

/-- Processing of one line of the loop body (source lines 100–114).
`.ok none`: the line contributes nothing (empty, non-SDG, or the caught
`ValueError` of a missing `" - "` separator).  `.ok (some (n, e))`: the
line stores entry `e` at key `n`.  `.error`: an exception the `except
ValueError` clause does not catch escapes (`AttributeError` from
`re.search(...).group(1)` when the label has no digits — checked first,
at source line 109 — or `IndexError` from `parts[1]` when the line has no
colon, at source line 110). -/
def lineParse (raw : String) : Except PyCrash (Option (Nat × SdgEntry)) :=
  if (pyStrip raw).data = [] then .ok none
  else if pyStartsWith (pyStrip raw) "SDG" then
    match firstDigitRun (pyStrip (splitColonOnce (pyStrip raw)).1) with
    | none => .error .attributeError
    | some n =>
      match (splitColonOnce (pyStrip raw)).2 with
      | none => .error .indexError
      | some rest =>
        match splitSepOnce (pyStrip rest) with
        | none => .ok none
        | some (score, expl) => .ok (some (n, ⟨pyStrip score, pyStrip expl⟩))
  else .ok none

/-- The parser loop over the remaining lines, threading the `results` dict;
an uncaught exception aborts the whole parse. -/
def parseLinesFrom (res : Results) : List String → Except PyCrash Results
  | [] => .ok res
  | l :: ls =>
    match lineParse l with
    | .error e => .error e
    | .ok none => parseLinesFrom res ls
    | .ok (some (n, entry)) => parseLinesFrom (insertEntry res n entry) ls

/-- `parse_evaluation_text` (source lines 95–115): split into lines, run the
per-line loop on an initially empty dict. -/
def parse_evaluation_text (t : String) : Except PyCrash Results :=
  parseLinesFrom [] (pySplitLines t)

/-- What one line contributes to the entry stored at key `n`: a later line
that stores key `n` replaces the accumulated value, any other line leaves
it unchanged.  (Only meaningful along crash-free parses.) -/
def contribStep (n : Nat) (acc : Option SdgEntry) (l : String) : Option SdgEntry :=
  match lineParse l with
  | .ok (some (m, e)) => if m = n then some e else acc
  | _ => acc

/-- The entry contributed by the *last* line of `ls` that stores key `n`. -/
def lastContribAt (n : Nat) (ls : List String) : Option SdgEntry :=
  ls.foldl (contribStep n) none

/-! ## The evaluation client (`evaluate_proposal`, source lines 41–93)

The HTTP exchange itself is outside the embedding; its observable outcome
is abstracted into `ApiOutcome`, and `evaluate_proposal` models how the
source turns that outcome into a return value or an exception. -/

/-- Possible outcomes of the single `requests.post` call plus response
decoding, as distinguished by the source's own handling. -/
inductive ApiOutcome where
  /-- `requests.exceptions.RequestException` from `post`/`raise_for_status`
  (transport failure or non-2xx status): caught at source lines 91–93. -/
  | transportError
  /-- The response JSON lacks `choices[0].message.content` (source line 83);
  the resulting `KeyError`/`IndexError` is *not* caught by the
  `except requests.exceptions.RequestException` clause. -/
  | missingContentField
  /-- The content field is present with this string value. -/
  | content (s : String)

/-- `evaluate_proposal` (source lines 41–93) as a function of the API
outcome: transport errors are converted to `None` (with a shown message),
an empty content string is converted to `None` (source lines 85–87), a
missing content field raises an uncaught `KeyError`. -/
def evaluate_proposal (outcome : ApiOutcome) : Except PyCrash (Option String) :=
  match outcome with
  | .transportError => .ok none
  | .missingContentField => .error .keyError
  | .content s => if s.data.isEmpty then .ok none else .ok (some s)

/-! ## The orchestration (`main`, source lines 117–178) -/

/-- The extraction dispatch of `main` (source lines 127–133), as a function
of the declared media type and of what `read_pdf` / `read_docx` would
return for this file (`none` models those functions returning `None` after
catching a read error).  The `else` branch of the source (lines 131–132)
executes `st.error(f"Error reading PDF or DOCX: {e}")` where no name `e`
is bound in `main`, so evaluating the f-string raises an uncaught
`NameError` before `proposal_text` is ever assigned. -/
def main_extract_dispatch (fileType : String) (pdfText docxText : Option String) :
    Except PyCrash (Option String) :=
  if fileType = "application/pdf" then .ok pdfText
  else if fileType = "application/vnd.openxmlformats-officedocument.wordprocessingml.document" then
    .ok docxText
  else .error .nameError

/-- Which argument `evaluate_proposal` is invoked with, if at all, in one
run of `main`'s uploaded-file branch (source lines 122–150).  The button
block (lines 139–150) performs `evaluate_proposal(proposal_text, ...)` with
no check of `proposal_text`: `.ok (some arg)` means the call happens with
`arg` as the proposal text, `.ok none` means the button was not pressed. -/
def main_evaluate_call_arg (fileType : String) (pdfText docxText : Option String)
    (buttonClicked : Bool) : Except PyCrash (Option (Option String)) :=
  match main_extract_dispatch fileType pdfText docxText with
  | .error e => .error e
  | .ok proposalText =>
    if buttonClicked then .ok (some proposalText) else .ok none

/-- The rendered bar chart: rows of (SDG number, integer score) sorted by
SDG number (source lines 169–175). -/
structure ChartData where
  rows : List (Nat × Int)
  deriving DecidableEq

/-- Insertion into a list sorted by SDG number (models
`sdg_df.sort_values('SDG')`, source line 174). -/
def insertBySdg (p : Nat × Int) : List (Nat × Int) → List (Nat × Int)
  | [] => [p]
  | q :: qs => if p.1 < q.1 then p :: q :: qs else q :: insertBySdg p qs

/-- Sort chart rows by SDG number. -/
def sortBySdg (l : List (Nat × Int)) : List (Nat × Int) :=
  l.foldr insertBySdg []

/-- Chart construction from the parsed results (source lines 169–175):
`int(data['score'])` is applied to every stored score string with no
enclosing `try`, so one non-numeric score raises an uncaught `ValueError`. -/
def main_build_chart (res : Results) : Except PyCrash ChartData :=
  match res.mapM (fun p => (pyInt p.2.score).map (fun v => (p.1, v))) with
  | none => .error .valueError
  | some rows => .ok ⟨sortBySdg rows⟩

/-- The body of `main`'s Evaluate-button block (source lines 139–178), as a
function of the outcome of the `evaluate_proposal` call.  The `try` of
lines 145–157 encloses only the evaluation call; when that call raises, the
`except` clause (lines 158–161) shows a message, after which line 162 reads
`evaluation_result` — a local that was never assigned — raising an uncaught
`UnboundLocalError` (a `NameError`).  When the call returns a truthy
string, lines 162–175 parse it and build the chart *outside* the `try`, so
parser crashes and the `ValueError` of a non-numeric score escape `main`.
`.ok none` models a falsy `evaluation_result` (nothing rendered);
`.ok (some chart)` models a successful render. -/
def main_button_handler (evalOutcome : Except PyCrash (Option String)) :
    Except PyCrash (Option ChartData) :=
  match evalOutcome with
  | .error _ => .error .nameError
  | .ok none => .ok none
  | .ok (some txt) =>
    if txt.data.isEmpty then .ok none
    else
      match parse_evaluation_text txt with
      | .error e => .error e
      | .ok parsed =>
        match main_build_chart parsed with
        | .error e => .error e
        | .ok chart => .ok (some chart)

/-! ## Helper lemmas -/

/-- A string starting with `"SDG"` is not empty. -/
theorem pyStartsWith_ne_nil {s : String} (h : pyStartsWith s "SDG" = true) :
    ¬ s.data = [] := by
  intro h0
  simp only [pyStartsWith] at h
  rw [h0] at h
  exact absurd h (by decide)

/-- `splitAtFirst` splits the input into the part before the separator, the
separator, and the part after it. -/
theorem splitAtFirst_append (sep : List Char) :
    ∀ cs a b : List Char, splitAtFirst sep cs = some (a, b) → cs = a ++ sep ++ b := by
  intro cs
  induction cs with
  | nil => intro a b h; simp [splitAtFirst] at h
  | cons c cs ih =>
    intro a b h
    rw [splitAtFirst] at h
    by_cases hp : sep.isPrefixOf (c :: cs) = true
    · rw [if_pos hp] at h
      obtain ⟨t, ht⟩ := List.isPrefixOf_iff_prefix.mp hp
      injection h with h'
      obtain ⟨rfl, rfl⟩ : ([] : List Char) = a ∧ (c :: cs).drop sep.length = b :=
        ⟨congrArg Prod.fst h', congrArg Prod.snd h'⟩
      rw [← ht, List.drop_left]
      simp [ht.symm]
    · rw [if_neg hp] at h
      cases hres : splitAtFirst sep cs with
      | none => rw [hres] at h; cases h
      | some ab =>
        obtain ⟨a', b'⟩ := ab
        rw [hres] at h
        injection h with h'
        obtain ⟨rfl, rfl⟩ : c :: a' = a ∧ b' = b :=
          ⟨congrArg Prod.fst h', congrArg Prod.snd h'⟩
        have := ih a' b' hres
        simp [this]

/-- `splitAtFirst` splits at the *first* occurrence: the separator is not a
prefix of any strictly earlier suffix. -/
theorem splitAtFirst_first (sep : List Char) :
    ∀ cs a b : List Char, splitAtFirst sep cs = some (a, b) →
      ∀ i, i < a.length → sep.isPrefixOf (cs.drop i) = false := by
  intro cs
  induction cs with
  | nil => intro a b h; simp [splitAtFirst] at h
  | cons c cs ih =>
    intro a b h i hi
    rw [splitAtFirst] at h
    by_cases hp : sep.isPrefixOf (c :: cs) = true
    · rw [if_pos hp] at h
      injection h with h'
      obtain rfl : ([] : List Char) = a := congrArg Prod.fst h'
      exact absurd hi (by simp)
    · rw [if_neg hp] at h
      cases hres : splitAtFirst sep cs with
      | none => rw [hres] at h; cases h
      | some ab =>
        obtain ⟨a', b'⟩ := ab
        rw [hres] at h
        injection h with h'
        obtain ⟨rfl, rfl⟩ : c :: a' = a ∧ b' = b :=
          ⟨congrArg Prod.fst h', congrArg Prod.snd h'⟩
        cases i with
        | zero => simpa using Bool.eq_false_iff.mpr (fun hc => hp hc)
        | succ j =>
          have : j < a'.length := by simpa using hi
          simpa using ih a' b' hres j this

/-- Replacing the entry at a key `m ≠ n` does not change the lookup at `n`. -/
theorem lookupSdg_map_replace_ne (m n : Nat) (e : SdgEntry) (hmn : ¬ m = n) :
    ∀ res : Results,
      lookupSdg (res.map (fun p => if p.1 = m then (m, e) else p)) n = lookupSdg res n := by
  intro res
  induction res with
  | nil => rfl
  | cons p ps ih =>
    by_cases hp : p.1 = m
    · simp only [List.map_cons, if_pos hp]
      have hpn : ¬ p.1 = n := by rw [hp]; exact hmn
      simp only [lookupSdg] at ih ⊢
      rw [List.find?_cons_of_neg _ (by simpa using hmn),
        List.find?_cons_of_neg _ (by simpa using hpn)]
      exact ih
    · simp only [List.map_cons, if_neg hp]
      by_cases hpn : p.1 = n
      · simp only [lookupSdg]
        rw [List.find?_cons_of_pos _ (by simpa using hpn),
          List.find?_cons_of_pos _ (by simpa using hpn)]
      · simp only [lookupSdg] at ih ⊢
        rw [List.find?_cons_of_neg _ (by simpa using hpn),
          List.find?_cons_of_neg _ (by simpa using hpn)]
        exact ih

/-- Replacing the entry at a present key `m` makes the lookup at `m` return
the new entry. -/
theorem lookupSdg_map_replace_eq (m : Nat) (e : SdgEntry) :
    ∀ res : Results, res.any (fun p => p.1 = m) = true →
      lookupSdg (res.map (fun p => if p.1 = m then (m, e) else p)) m = some e := by
  intro res
  induction res with
  | nil => intro h; cases h
  | cons p ps ih =>
    intro hany
    by_cases hp : p.1 = m
    · simp only [List.map_cons, if_pos hp, lookupSdg]
      rw [List.find?_cons_of_pos _ (by simp)]
      rfl
    · simp only [List.map_cons, if_neg hp, lookupSdg]
      rw [List.find?_cons_of_neg _ (by simpa using hp)]
      have : ps.any (fun p => p.1 = m) = true := by
        rw [List.any_cons] at hany
        simpa [hp] using hany
      exact ih this

/-- Appending an entry with key `m ≠ n` does not change the lookup at `n`. -/
theorem lookupSdg_append_single_ne (m n : Nat) (e : SdgEntry) (hmn : ¬ m = n)
    (res : Results) : lookupSdg (res ++ [(m, e)]) n = lookupSdg res n := by
  simp only [lookupSdg, List.find?_append]
  have : List.find? (fun p => p.1 = n) [(m, e)] = none := by simp [List.find?, hmn]
  rw [this, Option.or_none]

/-- Appending an entry with an absent key `m` makes the lookup at `m` return
the new entry. -/
theorem lookupSdg_append_single_eq (m : Nat) (e : SdgEntry) (res : Results)
    (hany : res.any (fun p => p.1 = m) = false) :
    lookupSdg (res ++ [(m, e)]) m = some e := by
  simp only [lookupSdg, List.find?_append]
  have hnone : List.find? (fun p => p.1 = m) res = none := by
    rw [List.find?_eq_none]
    intro x hx
    have := List.any_eq_false.mp hany x hx
    simpa using this
  rw [hnone, Option.none_or]
  simp [List.find?]

/-- Python dict assignment: after `results[m] = e`, the lookup at `m` is `e`
and every other key is unchanged. -/
theorem lookupSdg_insertEntry (res : Results) (m n : Nat) (e : SdgEntry) :
    lookupSdg (insertEntry res m e) n = if m = n then some e else lookupSdg res n := by
  unfold insertEntry
  by_cases hmn : m = n
  · subst hmn
    rw [if_pos rfl]
    by_cases hany : res.any (fun p => p.1 = m) = true
    · rw [if_pos hany]
      exact lookupSdg_map_replace_eq m e res hany
    · rw [if_neg hany]
      exact lookupSdg_append_single_eq m e res (Bool.eq_false_iff.mpr hany)
  · rw [if_neg hmn]
    by_cases hany : res.any (fun p => p.1 = m) = true
    · rw [if_pos hany]
      exact lookupSdg_map_replace_ne m n e hmn res
    · rw [if_neg hany]
      exact lookupSdg_append_single_ne m n e hmn res

/-- A dict assignment grows the dict by at most one entry. -/
theorem insertEntry_length (res : Results) (m : Nat) (e : SdgEntry) :
    (insertEntry res m e).length ≤ res.length + 1 := by
  unfold insertEntry
  split
  · simp
  · simp

/-- Along a crash-free parse, the dict grows by at most one entry per line. -/
theorem parseLinesFrom_length :
    ∀ (ls : List String) (res r : Results), parseLinesFrom res ls = .ok r →
      r.length ≤ res.length + ls.length := by
  intro ls
  induction ls with
  | nil =>
    intro res r h
    simp only [parseLinesFrom] at h
    injection h with h'
    simp [← h']
  | cons l ls ih =>
    intro res r h
    rw [parseLinesFrom] at h
    cases hl : lineParse l with
    | error e => rw [hl] at h; cases h
    | ok o =>
      rw [hl] at h
      cases o with
      | none =>
        have := ih res r h
        simp only [List.length_cons]
        omega
      | some p =>
        obtain ⟨n, entry⟩ := p
        have h1 := ih (insertEntry res n entry) r h
        have h2 := insertEntry_length res n entry
        simp only [List.length_cons]
        omega

/-- Along a crash-free parse, the entry stored at key `n` is the one
contributed by the last line that stores key `n`. -/
theorem parseLinesFrom_lookup (n : Nat) :
    ∀ (ls : List String) (res r : Results), parseLinesFrom res ls = .ok r →
      lookupSdg r n = ls.foldl (contribStep n) (lookupSdg res n) := by
  intro ls
  induction ls with
  | nil =>
    intro res r h
    simp only [parseLinesFrom] at h
    injection h with h'
    rw [← h']
    rfl
  | cons l ls ih =>
    intro res r h
    rw [parseLinesFrom] at h
    rw [List.foldl_cons]
    cases hl : lineParse l with
    | error e => rw [hl] at h; cases h
    | ok o =>
      rw [hl] at h
      cases o with
      | none =>
        rw [ih res r h]
        have : contribStep n (lookupSdg res n) l = lookupSdg res n := by
          simp [contribStep, hl]
        rw [this]
      | some p =>
        obtain ⟨m, e⟩ := p
        rw [ih (insertEntry res m e) r h]
        have : contribStep n (lookupSdg res n) l = lookupSdg (insertEntry res m e) n := by
          simp only [contribStep, hl, lookupSdg_insertEntry]
        rw [this]

/-! ## Claim theorems -/

/-- Claim C1 (code bug): the claim states that every fatal condition is
caught at the orchestration boundary of `main` and converted to an inline
message.  The code violates it at both scenarios the claim names: when the
`evaluate_proposal` call raises (e.g. `KeyError` for a response without the
expected content field), the `except` clause runs but line 162 then reads
the never-assigned `evaluation_result`, raising an uncaught
`UnboundLocalError`; and when a parsed score string is non-numeric,
`int(data['score'])` at line 171 — outside any `try` — raises an uncaught
`ValueError`. -/
theorem c1_unhandled_exceptions_escape_main :
    main_button_handler (evaluate_proposal .missingContentField) =
      .error .nameError ∧
    main_button_handler (evaluate_proposal (.content "SDG 1: abc - explanation")) =
      .error .valueError :=
  ⟨rfl, rfl⟩

/-- Claim C2, counterexample: the claim states that when extraction fails
(the extractor returns `None`), `evaluate_proposal` is never invoked.  For
a PDF whose `read_pdf` returns `None`, pressing the Evaluate button still
reaches the `evaluate_proposal(proposal_text, ...)` call (source line 150)
with `proposal_text = None`: the call *is* invoked on the absent text. -/
theorem c2_eval_invoked_on_absent_text_counterexample :
    main_evaluate_call_arg "application/pdf" none none true = .ok (some none) :=
  rfl

/-- Claim C2, amended: when extraction yields no text, the preview is
suppressed (line 135) but the Evaluate button block performs no such check:
whenever the dispatch produced `None` and the button is pressed,
`evaluate_proposal` is invoked with the absent text as its argument. -/
theorem c2_failed_extraction_still_invokes_evaluate (fileType : String)
    (pdfText docxText : Option String)
    (h : main_extract_dispatch fileType pdfText docxText = .ok none) :
    main_evaluate_call_arg fileType pdfText docxText true = .ok (some none) := by
  unfold main_evaluate_call_arg
  rw [h]
  rfl

/-- Claim C2, witness: a DOCX upload whose `read_docx` returned `None`,
with the button pressed. -/
theorem c2_failed_extraction_still_invokes_evaluate_witness :
    main_evaluate_call_arg
      "application/vnd.openxmlformats-officedocument.wordprocessingml.document"
      (some "unused") none true = .ok (some none) :=
  c2_failed_extraction_still_invokes_evaluate _ (some "unused") none rfl

/-- Claim C3 (code bug): the claim states that a line starting with `"SDG"`
whose label part has no digits is silently dropped and parsing continues.
In the code, `re.search(r'(\d+)', sdg)` returns `None` and `.group(1)`
raises an `AttributeError` that the `except ValueError` clause does not
catch: the whole parse aborts, and the following well-formed `SDG 3` line
is never reached. -/
theorem c3_digitless_label_crashes_parse :
    parse_evaluation_text "SDG X: 5 - foo\nSDG 3: 7 - ok" =
      .error .attributeError :=
  rfl

/-- Claim C4 (code bug): the claim states that an upload with any other
declared media type fails with an "unsupported format" message and no
unhandled exception.  The `else` branch (source lines 131–132) evaluates
`f"Error reading PDF or DOCX: {e}"` where no name `e` is bound, so it
raises an uncaught `NameError` — whatever the extractors would have
returned — instead of showing any message. -/
theorem c4_unsupported_type_raises_name_error (pdfText docxText : Option String) :
    main_extract_dispatch "text/plain" pdfText docxText = .error .nameError :=
  rfl

set_option maxRecDepth 8192 in
/-- Claim C5, counterexample: the claim states the parsed mapping has
between 0 and 17 entries for every input.  Eighteen well-formed lines with
distinct SDG numbers 1–18 parse into a mapping of 18 entries: the parser
enforces no upper bound of 17. -/
theorem c5_eighteen_entries_counterexample :
    (parse_evaluation_text
        ("SDG 1: 0 - e\nSDG 2: 0 - e\nSDG 3: 0 - e\nSDG 4: 0 - e\nSDG 5: 0 - e\n" ++
         "SDG 6: 0 - e\nSDG 7: 0 - e\nSDG 8: 0 - e\nSDG 9: 0 - e\nSDG 10: 0 - e\n" ++
         "SDG 11: 0 - e\nSDG 12: 0 - e\nSDG 13: 0 - e\nSDG 14: 0 - e\nSDG 15: 0 - e\n" ++
         "SDG 16: 0 - e\nSDG 17: 0 - e\nSDG 18: 0 - e")).map List.length = .ok 18 :=
  rfl

/-- Claim C5, amended: for every input text on which the parse completes,
the mapping has between 0 and `L` entries where `L` is the number of input
lines; the parser does not enforce the 17-entry bound (nor completeness). -/
theorem c5_result_size_at_most_line_count (t : String) (r : Results)
    (h : parse_evaluation_text t = .ok r) :
    r.length ≤ (pySplitLines t).length := by
  have := parseLinesFrom_length (pySplitLines t) [] r h
  simpa using this

/-- Claim C5, witness: a one-line input yields a one-entry mapping, within
the line-count bound. -/
theorem c5_result_size_at_most_line_count_witness :
    parse_evaluation_text "SDG 1: 1 - a" = .ok [(1, ⟨"1", "a"⟩)] ∧
    ([(1, (⟨"1", "a"⟩ : SdgEntry))] : Results).length ≤
      (pySplitLines "SDG 1: 1 - a").length :=
  ⟨rfl, c5_result_size_at_most_line_count _ _ rfl⟩

/-- Claim C6, counterexample: the claim covers every line that starts with
`"SDG"` and has a colon but no `" - "` in the remainder, asserting it is
dropped while all other correctly formatted lines still parse.  The line
`"SDG: 8 clean energy"` satisfies those conditions, but its label part has
no digits, so the parse raises an uncaught `AttributeError` before ever
reaching the `" - "` split — and the well-formed `SDG 3` line after it is
lost with the whole parse, contradicting the claim at this input. -/
theorem c6_separatorless_line_can_crash_parse :
    parse_evaluation_text "SDG: 8 clean energy\nSDG 3: 7 - ok" =
      .error .attributeError :=
  rfl

/-- Claim C6, amended: for every line that starts with `"SDG"`, has a colon,
has at least one digit in its label part, and has no `" - "` in the
remainder, the `ValueError` of the failed unpacking is caught: the line
contributes nothing, and parsing continues with the remaining lines exactly
as if the line were absent. -/
theorem c6_missing_separator_line_dropped (line rest : String) (res : Results)
    (ls : List String)
    (h1 : pyStartsWith (pyStrip line) "SDG" = true)
    (h2 : (splitColonOnce (pyStrip line)).2 = some rest)
    (h3 : (firstDigitRun (pyStrip (splitColonOnce (pyStrip line)).1)).isSome = true)
    (h4 : splitSepOnce (pyStrip rest) = none) :
    lineParse line = .ok none ∧
    parseLinesFrom res (line :: ls) = parseLinesFrom res ls := by
  have hne : ¬ (pyStrip line).data = [] := pyStartsWith_ne_nil h1
  obtain ⟨n, hn⟩ := Option.isSome_iff_exists.mp h3
  have hline : lineParse line = .ok none := by
    simp [lineParse, hne, h1, hn, h2, h4]
  exact ⟨hline, by simp [parseLinesFrom, hline]⟩

/-- Claim C6, witness: the spec's own example `"SDG 4: 8 clean energy"` is
dropped and the following well-formed line still parses. -/
theorem c6_missing_separator_line_dropped_witness :
    lineParse "SDG 4: 8 clean energy" = .ok none ∧
    parseLinesFrom [] ["SDG 4: 8 clean energy", "SDG 3: 7 - ok"] =
      parseLinesFrom [] ["SDG 3: 7 - ok"] :=
  c6_missing_separator_line_dropped "SDG 4: 8 clean energy" " 8 clean energy"
    [] ["SDG 3: 7 - ok"] rfl rfl rfl rfl

/-- Claim C7: parsing the single line
`"SDG 3: 7 - Good alignment with clean water goals"` yields exactly the
mapping with key 3 bound to score `"7"` and explanation
`"Good alignment with clean water goals"`. -/
theorem c7_example_line_parses :
    parse_evaluation_text "SDG 3: 7 - Good alignment with clean water goals" =
      .ok [(3, ⟨"7", "Good alignment with clean water goals"⟩)] :=
  rfl

/-- Claim C8: the parser is deterministic — it is a pure function of the
input text (its only side effect in the source is a diagnostic `print`),
so two runs on the same text yield equal results. -/
theorem c8_parse_deterministic (t : String) :
    parse_evaluation_text t = parse_evaluation_text t :=
  rfl

/-- Claim C9: on every crash-free parse, the entry stored at an SDG number
`n` is the one contributed by the *last* line that stores key `n`: later
duplicate SDG numbers overwrite earlier ones, and no conflict is reported
(the parse still returns `.ok`). -/
theorem c9_duplicate_sdg_last_wins (t : String) (r : Results) (n : Nat)
    (h : parse_evaluation_text t = .ok r) :
    lookupSdg r n = lastContribAt n (pySplitLines t) := by
  unfold parse_evaluation_text at h
  have := parseLinesFrom_lookup n (pySplitLines t) [] r h
  simpa [lastContribAt, lookupSdg] using this

/-- Claim C9, witness: two `SDG 5` lines; the mapping keeps the second
line's score and explanation. -/
theorem c9_duplicate_sdg_last_wins_witness :
    parse_evaluation_text "SDG 5: 3 - first\nSDG 5: 9 - second" =
      .ok [(5, ⟨"9", "second"⟩)] ∧
    lookupSdg [(5, (⟨"9", "second"⟩ : SdgEntry))] 5 =
      lastContribAt 5 (pySplitLines "SDG 5: 3 - first\nSDG 5: 9 - second") :=
  ⟨rfl, c9_duplicate_sdg_last_wins _ _ 5 rfl⟩

/-- Claim C10: for every well-formed line, the remainder after the colon is
split at the *first* occurrence of `" - "`: the stored score is the trimmed
text before that occurrence and the stored explanation is the entire
trimmed text after it, with any internal `" - "` occurrences preserved
(the remainder is literally score ++ `" - "` ++ explanation, and no
`" - "` occurs before the split point). -/
theorem c10_split_at_first_separator (line rest score expl : String) (n : Nat)
    (h1 : pyStartsWith (pyStrip line) "SDG" = true)
    (h2 : (splitColonOnce (pyStrip line)).2 = some rest)
    (h3 : firstDigitRun (pyStrip (splitColonOnce (pyStrip line)).1) = some n)
    (h4 : splitSepOnce (pyStrip rest) = some (score, expl))
    (_h5 : (splitSepOnce expl).isSome = true) :
    lineParse line = .ok (some (n, ⟨pyStrip score, pyStrip expl⟩)) ∧
    (pyStrip rest).data = score.data ++ sepChars ++ expl.data ∧
    noSepBefore (pyStrip rest).data score.data.length = true := by
  have hne : ¬ (pyStrip line).data = [] := pyStartsWith_ne_nil h1
  have hsplit : splitAtFirst sepChars (pyStrip rest).data =
      some (score.data, expl.data) := by
    unfold splitSepOnce at h4
    cases hsa : splitAtFirst sepChars (pyStrip rest).data with
    | none => rw [hsa] at h4; cases h4
    | some ab =>
      obtain ⟨a, b⟩ := ab
      rw [hsa] at h4
      injection h4 with h'
      obtain ⟨ha, hb⟩ : (⟨a⟩ : String) = score ∧ (⟨b⟩ : String) = expl :=
        ⟨congrArg Prod.fst h', congrArg Prod.snd h'⟩
      rw [← ha, ← hb]
  refine ⟨?_, ?_, ?_⟩
  · simp [lineParse, hne, h1, h3, h2, h4]
  · exact splitAtFirst_append sepChars _ _ _ hsplit
  · rw [noSepBefore, List.all_eq_true]
    intro i hi
    have hi' : i < score.data.length := List.mem_range.mp hi
    have := splitAtFirst_first sepChars _ _ _ hsplit i hi'
    simp [this]

/-- Claim C10, witness: the line `"SDG 2: 5 - part a - part b"` stores score
`"5"` and explanation `"part a - part b"` with the internal separator kept. -/
theorem c10_split_at_first_separator_witness :
    lineParse "SDG 2: 5 - part a - part b" =
      .ok (some (2, ⟨pyStrip "5", pyStrip "part a - part b"⟩)) ∧
    (pyStrip " 5 - part a - part b").data =
      "5".data ++ sepChars ++ "part a - part b".data ∧
    noSepBefore (pyStrip " 5 - part a - part b").data "5".data.length = true :=
  c10_split_at_first_separator "SDG 2: 5 - part a - part b" " 5 - part a - part b"
    "5" "part a - part b" 2 rfl rfl rfl rfl rfl

end ProposalEvaluator
